import Mathlib

/-!
Verification of the eventdbx FFI bridge (src/native/src/lib.rs).

The Rust source is shallowly embedded as follows.

* JSON values (serde_json::Value) become the inductive `Json`; numbers are
  modelled as integers (no claim depends on floating point).
* A C string pointer at the boundary is `CStr`: a null pointer, a pointer to
  bytes that decode as UTF-8 to a given Lean string, or a pointer to bytes
  whose UTF-8 decoding fails with a given library message.  The byte-level
  UTF-8 decoder itself is a Rust standard-library function and is abstracted
  by those three observable outcomes.
* serde_json::from_str and serde_json::to_string are external library
  functions; they are passed in as explicit function arguments
  (`JsonDecoder`, `JsonEncoder`), so every theorem quantifies over them.
* The tokio runtime and the wrapped EventDbxClient are external; each
  operation receives the client call as an oracle function from the typed
  request to an exceptional response, mirroring the single blocking
  `block_on` call in the source.
* The caller-supplied error-out slot `*mut *mut c_char` becomes `ErrSlot`:
  `none` when the slot pointer itself is null, `some content` otherwise,
  where `content : Option String` is the message currently stored.
* Each `extern "C"` entry point becomes a pure function from the slot state
  and its inputs to the pair (final slot state, returned buffer), where the
  returned buffer is `none` for a null return.

Rust string helpers (split, trim, to_lowercase) are re-implemented
structurally over `List Char` so that all definitions reduce inside the
kernel; `to_lowercase` is modelled by the per-character lowering, which
agrees with Rust on all inputs relevant here.
-/

namespace EventDbx

/-- JSON values, the model of serde_json::Value. -/
inductive Json where
  | null
  | bool (b : Bool)
  | num (n : Int)
  | str (s : String)
  | arr (elems : List Json)
  | obj (entries : List (String × Json))

/-- Lookup of a key in a JSON object map (serde_json Map::get). -/
def jget : List (String × Json) → String → Option Json
  | [], _ => none
  | (k, v) :: rest, key => if k = key then some v else jget rest key

/-- Model of Value::as_object. -/
def Json.asObject : Json → Option (List (String × Json))
  | Json.obj m => some m
  | _ => none

/-- Model of Value::as_str. -/
def Json.asStr : Json → Option String
  | Json.str s => some s
  | _ => none

/-- Model of Value::as_bool. -/
def Json.asBool : Json → Option Bool
  | Json.bool b => some b
  | _ => none

/-- Model of Value::as_u64: an integer in the u64 range. -/
def Json.asU64 : Json → Option Nat
  | Json.num n => if 0 ≤ n ∧ n < 2 ^ 64 then some n.toNat else none
  | _ => none

/-- Model of Value::get on an arbitrary value (None on non-objects). -/
def Json.getKey (v : Json) (k : String) : Option Json :=
  match v.asObject with
  | some m => jget m k
  | none => none

/-- An optional string rendered as a JSON value (used for nextCursor). -/
def optStrToJson : Option String → Json
  | some s => Json.str s
  | none => Json.null

/-- A C string argument at the FFI boundary: null pointer, valid UTF-8
bytes decoding to `s`, or bytes whose UTF-8 decoding fails with library
message `err`. -/
inductive CStr where
  | null
  | valid (s : String)
  | invalid (err : String)

/-- Model of string_from_ptr: a null pointer decodes to the empty string,
invalid UTF-8 yields an encoding error. -/
def string_from_ptr : CStr → Except String String
  | CStr.null => Except.ok ""
  | CStr.valid s => Except.ok s
  | CStr.invalid e => Except.error ("invalid utf-8: " ++ e)

/-- Abstract serde_json::from_str (the external JSON grammar). -/
def JsonDecoder := String → Except String Json

/-- Abstract serde_json::to_string composed with CString::new
(the to_cstring helper of the source). -/
def JsonEncoder := Json → Except String String

/-- Rust str::split on a single separator character: always at least one
piece, empty pieces preserved. -/
def splitOnChar (c : Char) : List Char → List (List Char)
  | [] => [[]]
  | x :: xs =>
    let r := splitOnChar c xs
    if x = c then [] :: r
    else
      match r with
      | [] => [[x]]
      | y :: ys => (x :: y) :: ys

/-- Rust str::trim over the character list. -/
def trimChars (l : List Char) : List Char :=
  ((l.dropWhile Char.isWhitespace).reverse.dropWhile Char.isWhitespace).reverse

/-- Rust str::to_lowercase, modelled per character. -/
def lowerChars (l : List Char) : List Char :=
  l.map Char.toLower

/-- Rust splitn(2, c): the piece before the first occurrence of `c`, and
the remainder after it when `c` occurs at all. -/
def splitFirst (c : Char) : List Char → List Char × Option (List Char)
  | [] => ([], none)
  | x :: xs =>
    if x = c then ([], some xs)
    else
      let r := splitFirst c xs
      (x :: r.1, r.2)

/-- Model of parse_json: null pointer and blank text decode to JSON null;
otherwise the abstract grammar decides, with its message wrapped. -/
def parse_json (P : JsonDecoder) (ptr : CStr) : Except String Json :=
  match ptr with
  | CStr.null => Except.ok Json.null
  | _ =>
    match string_from_ptr ptr with
    | Except.error e => Except.error e
    | Except.ok text =>
      if (trimChars text.data).isEmpty then Except.ok Json.null
      else
        match P text with
        | Except.ok v => Except.ok v
        | Except.error e => Except.error ("invalid json: " ++ e)

/-- Sort fields of the aggregate listing, from the wrapped client library. -/
inductive AggregateSortField where
  | aggregateType
  | aggregateId
  | archived
  | createdAt
  | updatedAt
deriving Repr, DecidableEq

/-- One sort entry: a field and a direction. -/
structure AggregateSort where
  field : AggregateSortField
  descending : Bool
deriving Repr, DecidableEq

/-- The field-name match arm of parse_sort, aliases included. -/
def sortFieldOfName (s : List Char) : Option AggregateSortField :=
  if s = "aggregate_type".data ∨ s = "type".data then some AggregateSortField.aggregateType
  else if s = "aggregate_id".data ∨ s = "id".data then some AggregateSortField.aggregateId
  else if s = "archived".data then some AggregateSortField.archived
  else if s = "created_at".data then some AggregateSortField.createdAt
  else if s = "updated_at".data then some AggregateSortField.updatedAt
  else none

/-- The loop body of parse_sort on one (already trimmed, non-empty) token:
split on the first colon, trim and lower-case both halves, match the field,
read the direction. -/
def parseSortToken (part : List Char) : Option AggregateSort :=
  match splitFirst ':' part with
  | (field_part, order_part) =>
    let field_raw := lowerChars (trimChars field_part)
    let order_raw := lowerChars (trimChars (order_part.getD "asc".data))
    match sortFieldOfName field_raw with
    | none => none
    | some f => some ⟨f, (order_raw == "desc".data || order_raw == "descending".data)⟩

/-- The iterator chain of parse_sort: split on commas, trim, keep
non-empty tokens. -/
def sortTokens (text : String) : List (List Char) :=
  ((splitOnChar ',' text.data).map trimChars).filter (fun p => !p.isEmpty)

/-- Model of parse_sort. -/
def parse_sort (value : Option Json) : List AggregateSort :=
  match value with
  | some (Json.str text) => (sortTokens text).filterMap parseSortToken
  | _ => []

/-- A publish target, from the wrapped client library. -/
structure PublishTarget where
  plugin : String
  mode : Option String := none
  priority : Option String := none
deriving Repr, DecidableEq

/-- Model of parse_publish_targets: iterate an array, drop entries without
a string plugin field, copy string mode/priority when present. -/
def parse_publish_targets : Option Json → List PublishTarget
  | some (Json.arr items) =>
    items.filterMap fun item =>
      match (item.getKey "plugin").bind Json.asStr with
      | some plugin =>
        some { plugin := plugin,
               mode := (item.getKey "mode").bind Json.asStr,
               priority := (item.getKey "priority").bind Json.asStr }
      | none => none
  | _ => []

/-- The tuple returned by parse_payload_options, as a named record. -/
structure PayloadOptions where
  payload : Json := Json.null
  note : Option String := none
  metadata : Option Json := none
  token : Option String := none
  publish_targets : List PublishTarget := []

/-- Model of parse_payload_options. -/
def parse_payload_options (optsValue : Json) : PayloadOptions :=
  match optsValue.asObject with
  | some m =>
    { payload := (jget m "payload").getD Json.null,
      metadata := jget m "metadata",
      note := (jget m "note").bind Json.asStr,
      token := (jget m "token").bind Json.asStr,
      publish_targets := parse_publish_targets (jget m "publishTargets") }
  | none => {}

/-- The deserialized configuration object (struct ConfigInput). -/
structure ConfigInput where
  ip : Option String := none
  host : Option String := none
  port : Option Nat := none
  token : Option String := none
  tenant_id : Option String := none
  tenant : Option String := none
  tenant_id_env : Option String := none
  no_noise : Option Bool := none
  connect_timeout_ms : Option Nat := none
  request_timeout_ms : Option Nat := none
  protocol_version : Option Nat := none

/-- The process environment as consulted by the resolver. -/
def Env := String → Option String

/-- Model of default_host: explicit host, else explicit ip, else the
EVENTDBX_HOST variable, else the literal default. -/
def default_host (env : Env) (cfg : ConfigInput) : String :=
  (((cfg.host.orElse fun _ => cfg.ip).orElse fun _ => env "EVENTDBX_HOST").getD "127.0.0.1")

/-- Model of default_token: explicit token, else the EVENTDBX_TOKEN
variable; no literal default. -/
def default_token (env : Env) (cfg : ConfigInput) : Option String :=
  cfg.token.orElse fun _ => env "EVENTDBX_TOKEN"

/-- Model of default_tenant: tenantId, else tenant, else tenantIdEnv (as a
value), else the EVENTDBX_TENANT_ID variable, else the literal default. -/
def default_tenant (env : Env) (cfg : ConfigInput) : String :=
  ((((cfg.tenant_id.orElse fun _ => cfg.tenant).orElse fun _ => cfg.tenant_id_env).orElse
      fun _ => env "EVENTDBX_TENANT_ID").getD "default")

/-- Serde field access for an optional string field: absent and JSON null
give none, a string gives its value, any other shape is a type error.  The
concrete serde error text is abstracted; only its presence matters. -/
def getStrField (m : List (String × Json)) (k : String) : Except String (Option String) :=
  match jget m k with
  | none => Except.ok none
  | some Json.null => Except.ok none
  | some (Json.str s) => Except.ok (some s)
  | some _ => Except.error ("invalid config: invalid type for " ++ k)

/-- Serde field access for an optional unsigned integer field bounded by
`bound` (u16 or u64). -/
def getNatField (m : List (String × Json)) (k : String) (bound : Nat) : Except String (Option Nat) :=
  match jget m k with
  | none => Except.ok none
  | some Json.null => Except.ok none
  | some (Json.num n) =>
    if 0 ≤ n ∧ n < (bound : Int) then Except.ok (some n.toNat)
    else Except.error ("invalid config: invalid type for " ++ k)
  | some _ => Except.error ("invalid config: invalid type for " ++ k)

/-- Serde field access for an optional boolean field. -/
def getBoolField (m : List (String × Json)) (k : String) : Except String (Option Bool) :=
  match jget m k with
  | none => Except.ok none
  | some Json.null => Except.ok none
  | some (Json.bool b) => Except.ok (some b)
  | some _ => Except.error ("invalid config: invalid type for " ++ k)

/-- Model of serde_json::from_value::<ConfigInput> on an object map
(camelCase field names, unknown keys ignored). -/
def config_input_from_obj (m : List (String × Json)) : Except String ConfigInput := do
  let ip ← getStrField m "ip"
  let host ← getStrField m "host"
  let port ← getNatField m "port" (2 ^ 16)
  let token ← getStrField m "token"
  let tenant_id ← getStrField m "tenantId"
  let tenant ← getStrField m "tenant"
  let tenant_id_env ← getStrField m "tenantIdEnv"
  let no_noise ← getBoolField m "noNoise"
  let connect_timeout_ms ← getNatField m "connectTimeoutMs" (2 ^ 64)
  let request_timeout_ms ← getNatField m "requestTimeoutMs" (2 ^ 64)
  let protocol_version ← getNatField m "protocolVersion" (2 ^ 16)
  pure { ip, host, port, token, tenant_id, tenant, tenant_id_env, no_noise,
         connect_timeout_ms, request_timeout_ms, protocol_version }

/-- The JSON-decoding and deserialization stage of dbx_client_new: a null
or absent config is an empty object, any other non-object is rejected. -/
def decode_config (P : JsonDecoder) (config_json : CStr) : Except String ConfigInput :=
  match parse_json P config_json with
  | Except.error e => Except.error e
  | Except.ok v =>
    match v with
    | Json.obj m => config_input_from_obj m
    | Json.null => config_input_from_obj []
    | _ => Except.error "config must be a JSON object"

/-- The wrapped client configuration after the builder calls in
dbx_client_new.  The builder defaults (noise enabled, optional tenant) are
those of the external client library as described by the specification. -/
structure ClientConfig where
  host : String
  token : String
  port : Option Nat := none
  protocol_version : Option Nat := none
  connect_timeout_ms : Option Nat := none
  request_timeout_ms : Option Nat := none
  tenant : Option String := none
  noise : Bool := true

/-- The builder sequence of dbx_client_new applied to a resolved host and
token. -/
def build_client_config (env : Env) (host token : String) (cfg : ConfigInput) : ClientConfig :=
  { host := host, token := token,
    port := cfg.port,
    protocol_version := cfg.protocol_version,
    connect_timeout_ms := cfg.connect_timeout_ms,
    request_timeout_ms := cfg.request_timeout_ms,
    tenant := some (default_tenant env cfg),
    noise := match cfg.no_noise with
      | some b => !b
      | none => true }

/-- Options of list_aggregates, from the wrapped client library. -/
structure ListAggregatesOptions where
  cursor : Option String := none
  take : Option Nat := none
  filter : Option String := none
  include_archived : Bool := false
  archived_only : Bool := false
  token : Option String := none
  sort : List AggregateSort := []

/-- The option-decoding block of dbx_list_aggregates, including the filter
synthesized from a supplied aggregate type when no explicit filter string
is present. -/
def build_list_aggregates_opts (agg_type : Option String) (optsValue : Json) : ListAggregatesOptions :=
  let opts : ListAggregatesOptions :=
    match optsValue.asObject with
    | some m =>
      { cursor := (jget m "cursor").bind Json.asStr,
        take := (jget m "take").bind Json.asU64,
        filter := (jget m "filter").bind Json.asStr,
        include_archived := ((jget m "includeArchived").bind Json.asBool).getD false,
        archived_only := ((jget m "archivedOnly").bind Json.asBool).getD false,
        token := (jget m "token").bind Json.asStr,
        sort := parse_sort (jget m "sort") }
    | none => {}
  match agg_type with
  | some t =>
    if opts.filter = none then
      { opts with filter := some ("aggregate_type = \"" ++ t ++ "\"") }
    else opts
  | none => opts

/-- Options of list_events, from the wrapped client library. -/
structure ListEventsOptions where
  cursor : Option String := none
  take : Option Nat := none
  filter : Option String := none
  token : Option String := none

/-- The option-decoding block of dbx_list_events. -/
def build_list_events_opts (optsValue : Json) : ListEventsOptions :=
  match optsValue.asObject with
  | some m =>
    { cursor := (jget m "cursor").bind Json.asStr,
      take := (jget m "take").bind Json.asU64,
      filter := (jget m "filter").bind Json.asStr,
      token := (jget m "token").bind Json.asStr }
  | none => {}

/-- Request of select_aggregate. -/
structure SelectAggregateRequest where
  aggregate_type : String
  aggregate_id : String
  fields : List String

/-- The fields-decoding block of dbx_select_aggregate: an array keeps its
string elements, null is the empty list, anything else is rejected. -/
def parse_fields : Json → Except String (List String)
  | Json.arr items => Except.ok (items.filterMap Json.asStr)
  | Json.null => Except.ok []
  | _ => Except.error "fields must be an array of strings"

/-- Request of append_event. -/
structure AppendEventRequest where
  aggregate_type : String
  aggregate_id : String
  event_type : String
  payload : Json
  note : Option String := none
  metadata : Option Json := none
  token : Option String := none
  publish_targets : List PublishTarget := []

/-- Request of create_aggregate. -/
structure CreateAggregateRequest where
  aggregate_type : String
  aggregate_id : String
  event_type : String
  payload : Json
  note : Option String := none
  metadata : Option Json := none
  token : Option String := none
  publish_targets : List PublishTarget := []

/-- Request of patch_event; `payload` holds the patch value. -/
structure PatchEventRequest where
  aggregate_type : String
  aggregate_id : String
  event_type : String
  payload : Json
  note : Option String := none
  metadata : Option Json := none
  token : Option String := none
  publish_targets : List PublishTarget := []

/-- Request of set_aggregate_archive. -/
structure SetAggregateArchiveRequest where
  aggregate_type : String
  aggregate_id : String
  archived : Bool
  note : Option String := none
  token : Option String := none

/-- The request construction of dbx_append_event: a structured-null
payload is replaced by an empty object. -/
def build_append_request (t i e : String) (optsValue : Json) : AppendEventRequest :=
  let po := parse_payload_options optsValue
  let payload := match po.payload with
    | Json.null => Json.obj []
    | other => other
  { aggregate_type := t, aggregate_id := i, event_type := e, payload := payload,
    note := po.note, metadata := po.metadata, token := po.token,
    publish_targets := po.publish_targets }

/-- The request construction of dbx_create_aggregate: a structured-null
payload is replaced by an empty object. -/
def build_create_request (t i e : String) (optsValue : Json) : CreateAggregateRequest :=
  let po := parse_payload_options optsValue
  let payload := match po.payload with
    | Json.null => Json.obj []
    | other => other
  { aggregate_type := t, aggregate_id := i, event_type := e, payload := payload,
    note := po.note, metadata := po.metadata, token := po.token,
    publish_targets := po.publish_targets }

/-- The request construction of dbx_patch_event: the parsed patch value is
used as-is, and the payload field of the options is ignored. -/
def build_patch_request (t i e : String) (patchValue optsValue : Json) : PatchEventRequest :=
  let po := parse_payload_options optsValue
  { aggregate_type := t, aggregate_id := i, event_type := e, payload := patchValue,
    note := po.note, metadata := po.metadata, token := po.token,
    publish_targets := po.publish_targets }

/-- The request construction of dbx_set_archive. -/
def build_set_archive_request (t i : String) (archived : Bool) (optsValue : Json) : SetAggregateArchiveRequest :=
  let base : SetAggregateArchiveRequest :=
    { aggregate_type := t, aggregate_id := i, archived := archived }
  match optsValue.asObject with
  | some m =>
    { base with
      note := (jget m "note").bind Json.asStr,
      token := (jget m "token").bind Json.asStr }
  | none => base

/-- Response of list_aggregates. -/
structure ListAggregatesResponse where
  aggregates : Json
  next_cursor : Option String

/-- Response of get_aggregate. -/
structure GetAggregateResponse where
  found : Bool
  aggregate : Option Json

/-- Response of select_aggregate. -/
structure SelectAggregateResponse where
  found : Bool
  selection : Option Json

/-- Response of list_events. -/
structure ListEventsResponse where
  events : Json
  next_cursor : Option String

/-- Response of append_event. -/
structure AppendEventResponse where
  event : Json

/-- Response of create_aggregate. -/
structure CreateAggregateResponse where
  aggregate : Json

/-- Response of patch_event. -/
structure PatchEventResponse where
  event : Json

/-- Response of set_aggregate_archive. -/
structure SetArchiveResponse where
  aggregate : Json

/-- Response of verify_aggregate. -/
structure VerifyAggregateResponse where
  merkle_root : String

/-- The error-out slot: none models a null slot pointer, some content
models a live slot currently holding `content` (none being a null message
pointer). -/
def ErrSlot := Option (Option String)

/-- Model of clear_error: write a null message, unless the slot pointer is
null. -/
def clear_error : ErrSlot → ErrSlot
  | none => none
  | some _ => some none

/-- Model of set_error: write the message, unless the slot pointer is
null. -/
def set_error (msg : String) : ErrSlot → ErrSlot
  | none => none
  | some _ => some (some msg)

/-- The uniform return convention of every entry point: clear the slot on
entry; a failing body sets the slot and returns null, a successful body
leaves the cleared slot and returns its value. -/
def ffi_return {α : Type} (slot0 : ErrSlot) (body : Except String α) : ErrSlot × Option α :=
  let slot := clear_error slot0
  match body with
  | Except.error e => (set_error e slot, none)
  | Except.ok a => (slot, some a)

/-- The final to_cstring step shared by all value-returning operations. -/
def serialize_step (ser : JsonEncoder) (body : Except String Json) : Except String String :=
  match body with
  | Except.error e => Except.error e
  | Except.ok j => ser j

/-- The body of dbx_list_aggregates up to and including the client call,
with the wrapped client's list_aggregates as an oracle. -/
def list_aggregates_body (handleNull : Bool) (aggregate_type options_json : CStr)
    (P : JsonDecoder)
    (client : ListAggregatesOptions → Except String ListAggregatesResponse) :
    Except String Json :=
  if handleNull then Except.error "handle is null" else
  match string_from_ptr aggregate_type with
  | Except.error e => Except.error e
  | Except.ok s =>
    let agg_type : Option String := if s = "" then none else some s
    match parse_json P options_json with
    | Except.error e => Except.error e
    | Except.ok optsValue =>
      match client (build_list_aggregates_opts agg_type optsValue) with
      | Except.error e => Except.error e
      | Except.ok resp =>
        Except.ok (Json.obj
          [("items", resp.aggregates), ("nextCursor", optStrToJson resp.next_cursor)])

/-- Entry point dbx_list_aggregates. -/
def dbx_list_aggregates (slot0 : ErrSlot) (handleNull : Bool)
    (aggregate_type options_json : CStr) (P : JsonDecoder) (ser : JsonEncoder)
    (client : ListAggregatesOptions → Except String ListAggregatesResponse) :
    ErrSlot × Option String :=
  ffi_return slot0 (serialize_step ser
    (list_aggregates_body handleNull aggregate_type options_json P client))

/-- The string-decoding stage of dbx_get_aggregate. -/
def get_aggregate_args (aggregate_type aggregate_id : CStr) :
    Except String (String × String) :=
  match string_from_ptr aggregate_type with
  | Except.error e => Except.error e
  | Except.ok t =>
    match string_from_ptr aggregate_id with
    | Except.error e => Except.error e
    | Except.ok i => Except.ok (t, i)

/-- The body of dbx_get_aggregate. -/
def get_aggregate_body (handleNull : Bool) (aggregate_type aggregate_id : CStr)
    (client : String → String → Except String GetAggregateResponse) :
    Except String Json :=
  if handleNull then Except.error "handle is null" else
  match get_aggregate_args aggregate_type aggregate_id with
  | Except.error e => Except.error e
  | Except.ok (t, i) =>
    match client t i with
    | Except.error e => Except.error e
    | Except.ok resp =>
      Except.ok (Json.obj
        [("found", Json.bool resp.found), ("aggregate", resp.aggregate.getD Json.null)])

/-- Entry point dbx_get_aggregate. -/
def dbx_get_aggregate (slot0 : ErrSlot) (handleNull : Bool)
    (aggregate_type aggregate_id : CStr) (ser : JsonEncoder)
    (client : String → String → Except String GetAggregateResponse) :
    ErrSlot × Option String :=
  ffi_return slot0 (serialize_step ser
    (get_aggregate_body handleNull aggregate_type aggregate_id client))

/-- The body of dbx_select_aggregate. -/
def select_aggregate_body (handleNull : Bool)
    (aggregate_type aggregate_id fields_json : CStr) (P : JsonDecoder)
    (client : SelectAggregateRequest → Except String SelectAggregateResponse) :
    Except String Json :=
  if handleNull then Except.error "handle is null" else
  match string_from_ptr aggregate_type with
  | Except.error e => Except.error e
  | Except.ok t =>
    match string_from_ptr aggregate_id with
    | Except.error e => Except.error e
    | Except.ok i =>
      match parse_json P fields_json with
      | Except.error e => Except.error e
      | Except.ok fieldsValue =>
        match parse_fields fieldsValue with
        | Except.error e => Except.error e
        | Except.ok fields =>
          match client { aggregate_type := t, aggregate_id := i, fields := fields } with
          | Except.error e => Except.error e
          | Except.ok resp =>
            Except.ok (Json.obj
              [("found", Json.bool resp.found), ("selection", resp.selection.getD Json.null)])

/-- Entry point dbx_select_aggregate. -/
def dbx_select_aggregate (slot0 : ErrSlot) (handleNull : Bool)
    (aggregate_type aggregate_id fields_json : CStr) (P : JsonDecoder) (ser : JsonEncoder)
    (client : SelectAggregateRequest → Except String SelectAggregateResponse) :
    ErrSlot × Option String :=
  ffi_return slot0 (serialize_step ser
    (select_aggregate_body handleNull aggregate_type aggregate_id fields_json P client))

/-- The body of dbx_list_events. -/
def list_events_body (handleNull : Bool)
    (aggregate_type aggregate_id options_json : CStr) (P : JsonDecoder)
    (client : String → String → ListEventsOptions → Except String ListEventsResponse) :
    Except String Json :=
  if handleNull then Except.error "handle is null" else
  match string_from_ptr aggregate_type with
  | Except.error e => Except.error e
  | Except.ok t =>
    match string_from_ptr aggregate_id with
    | Except.error e => Except.error e
    | Except.ok i =>
      match parse_json P options_json with
      | Except.error e => Except.error e
      | Except.ok optsValue =>
        match client t i (build_list_events_opts optsValue) with
        | Except.error e => Except.error e
        | Except.ok resp =>
          Except.ok (Json.obj
            [("items", resp.events), ("nextCursor", optStrToJson resp.next_cursor)])

/-- Entry point dbx_list_events. -/
def dbx_list_events (slot0 : ErrSlot) (handleNull : Bool)
    (aggregate_type aggregate_id options_json : CStr) (P : JsonDecoder) (ser : JsonEncoder)
    (client : String → String → ListEventsOptions → Except String ListEventsResponse) :
    ErrSlot × Option String :=
  ffi_return slot0 (serialize_step ser
    (list_events_body handleNull aggregate_type aggregate_id options_json P client))

/-- The body of dbx_append_event. -/
def append_event_body (handleNull : Bool)
    (aggregate_type aggregate_id event_type options_json : CStr) (P : JsonDecoder)
    (client : AppendEventRequest → Except String AppendEventResponse) :
    Except String Json :=
  if handleNull then Except.error "handle is null" else
  match string_from_ptr aggregate_type with
  | Except.error e => Except.error e
  | Except.ok t =>
    match string_from_ptr aggregate_id with
    | Except.error e => Except.error e
    | Except.ok i =>
      match string_from_ptr event_type with
      | Except.error e => Except.error e
      | Except.ok e =>
        match parse_json P options_json with
        | Except.error err => Except.error err
        | Except.ok optsValue =>
          match client (build_append_request t i e optsValue) with
          | Except.error err => Except.error err
          | Except.ok resp => Except.ok (Json.obj [("event", resp.event)])

/-- Entry point dbx_append_event. -/
def dbx_append_event (slot0 : ErrSlot) (handleNull : Bool)
    (aggregate_type aggregate_id event_type options_json : CStr)
    (P : JsonDecoder) (ser : JsonEncoder)
    (client : AppendEventRequest → Except String AppendEventResponse) :
    ErrSlot × Option String :=
  ffi_return slot0 (serialize_step ser
    (append_event_body handleNull aggregate_type aggregate_id event_type options_json P client))

/-- The body of dbx_create_aggregate. -/
def create_aggregate_body (handleNull : Bool)
    (aggregate_type aggregate_id event_type options_json : CStr) (P : JsonDecoder)
    (client : CreateAggregateRequest → Except String CreateAggregateResponse) :
    Except String Json :=
  if handleNull then Except.error "handle is null" else
  match string_from_ptr aggregate_type with
  | Except.error e => Except.error e
  | Except.ok t =>
    match string_from_ptr aggregate_id with
    | Except.error e => Except.error e
    | Except.ok i =>
      match string_from_ptr event_type with
      | Except.error e => Except.error e
      | Except.ok e =>
        match parse_json P options_json with
        | Except.error err => Except.error err
        | Except.ok optsValue =>
          match client (build_create_request t i e optsValue) with
          | Except.error err => Except.error err
          | Except.ok resp => Except.ok (Json.obj [("aggregate", resp.aggregate)])

/-- Entry point dbx_create_aggregate. -/
def dbx_create_aggregate (slot0 : ErrSlot) (handleNull : Bool)
    (aggregate_type aggregate_id event_type options_json : CStr)
    (P : JsonDecoder) (ser : JsonEncoder)
    (client : CreateAggregateRequest → Except String CreateAggregateResponse) :
    ErrSlot × Option String :=
  ffi_return slot0 (serialize_step ser
    (create_aggregate_body handleNull aggregate_type aggregate_id event_type options_json P client))

/-- The body of dbx_patch_event. -/
def patch_event_body (handleNull : Bool)
    (aggregate_type aggregate_id event_type patch_json options_json : CStr) (P : JsonDecoder)
    (client : PatchEventRequest → Except String PatchEventResponse) :
    Except String Json :=
  if handleNull then Except.error "handle is null" else
  match string_from_ptr aggregate_type with
  | Except.error e => Except.error e
  | Except.ok t =>
    match string_from_ptr aggregate_id with
    | Except.error e => Except.error e
    | Except.ok i =>
      match string_from_ptr event_type with
      | Except.error e => Except.error e
      | Except.ok e =>
        match parse_json P patch_json with
        | Except.error err => Except.error err
        | Except.ok patchValue =>
          match parse_json P options_json with
          | Except.error err => Except.error err
          | Except.ok optsValue =>
            match client (build_patch_request t i e patchValue optsValue) with
            | Except.error err => Except.error err
            | Except.ok resp => Except.ok (Json.obj [("event", resp.event)])

/-- Entry point dbx_patch_event. -/
def dbx_patch_event (slot0 : ErrSlot) (handleNull : Bool)
    (aggregate_type aggregate_id event_type patch_json options_json : CStr)
    (P : JsonDecoder) (ser : JsonEncoder)
    (client : PatchEventRequest → Except String PatchEventResponse) :
    ErrSlot × Option String :=
  ffi_return slot0 (serialize_step ser
    (patch_event_body handleNull aggregate_type aggregate_id event_type patch_json options_json P client))

/-- The body of dbx_set_archive. -/
def set_archive_body (handleNull : Bool)
    (aggregate_type aggregate_id : CStr) (archived : Bool) (options_json : CStr)
    (P : JsonDecoder)
    (client : SetAggregateArchiveRequest → Except String SetArchiveResponse) :
    Except String Json :=
  if handleNull then Except.error "handle is null" else
  match string_from_ptr aggregate_type with
  | Except.error e => Except.error e
  | Except.ok t =>
    match string_from_ptr aggregate_id with
    | Except.error e => Except.error e
    | Except.ok i =>
      match parse_json P options_json with
      | Except.error e => Except.error e
      | Except.ok optsValue =>
        match client (build_set_archive_request t i archived optsValue) with
        | Except.error e => Except.error e
        | Except.ok resp => Except.ok (Json.obj [("aggregate", resp.aggregate)])

/-- Entry point dbx_set_archive. -/
def dbx_set_archive (slot0 : ErrSlot) (handleNull : Bool)
    (aggregate_type aggregate_id : CStr) (archived : Bool) (options_json : CStr)
    (P : JsonDecoder) (ser : JsonEncoder)
    (client : SetAggregateArchiveRequest → Except String SetArchiveResponse) :
    ErrSlot × Option String :=
  ffi_return slot0 (serialize_step ser
    (set_archive_body handleNull aggregate_type aggregate_id archived options_json P client))

/-- The body of dbx_verify_aggregate. -/
def verify_aggregate_body (handleNull : Bool) (aggregate_type aggregate_id : CStr)
    (client : String → String → Except String VerifyAggregateResponse) :
    Except String Json :=
  if handleNull then Except.error "handle is null" else
  match string_from_ptr aggregate_type with
  | Except.error e => Except.error e
  | Except.ok t =>
    match string_from_ptr aggregate_id with
    | Except.error e => Except.error e
    | Except.ok i =>
      match client t i with
      | Except.error e => Except.error e
      | Except.ok resp => Except.ok (Json.obj [("merkleRoot", Json.str resp.merkle_root)])

/-- Entry point dbx_verify_aggregate. -/
def dbx_verify_aggregate (slot0 : ErrSlot) (handleNull : Bool)
    (aggregate_type aggregate_id : CStr) (ser : JsonEncoder)
    (client : String → String → Except String VerifyAggregateResponse) :
    ErrSlot × Option String :=
  ffi_return slot0 (serialize_step ser
    (verify_aggregate_body handleNull aggregate_type aggregate_id client))

/-- The body of dbx_client_new: decode and resolve the configuration, then
create the runtime and connect; the runtime constructor and the connect
handshake are external oracles. -/
def client_new_body (P : JsonDecoder) (env : Env) (config_json : CStr)
    (runtime_new : Except String Unit) (connect : ClientConfig → Except String Unit) :
    Except String ClientConfig :=
  match decode_config P config_json with
  | Except.error e => Except.error e
  | Except.ok cfg =>
    let host := default_host env cfg
    match default_token env cfg with
    | none => Except.error "token is required"
    | some token =>
      let client_cfg := build_client_config env host token cfg
      match runtime_new with
      | Except.error e => Except.error ("failed to create runtime: " ++ e)
      | Except.ok _ =>
        match connect client_cfg with
        | Except.error e => Except.error ("failed to connect: " ++ e)
        | Except.ok _ => Except.ok client_cfg

/-- Entry point dbx_client_new: a non-null result stands for the returned
boxed handle owning the connected client built from this configuration. -/
def dbx_client_new (slot0 : ErrSlot) (P : JsonDecoder) (env : Env) (config_json : CStr)
    (runtime_new : Except String Unit) (connect : ClientConfig → Except String Unit) :
    ErrSlot × Option ClientConfig :=
  ffi_return slot0 (client_new_body P env config_json runtime_new connect)

/-- What dbx_client_free does with its pointer argument. -/
inductive FreeAction where
  | noop
  | freed
deriving Repr, DecidableEq

/-- Model of dbx_client_free: dropping the box, except on a null handle. -/
def dbx_client_free (handleNull : Bool) : FreeAction :=
  if handleNull then FreeAction.noop else FreeAction.freed

/-!
Specification-side definitions.  The following definitions are written
from the wording of the specification and of the claims, to be compared
against the definitions above, which are translated from the source.
-/

/-- Sort-token reading exactly as the claim words it: split the token on
the first colon, lower-case the field name and match it, and set
descending exactly when the lower-cased direction is desc or descending,
absent meaning ascending.  No trimming around the colon is mentioned. -/
def claimSortToken (part : List Char) : Option AggregateSort :=
  match splitFirst ':' part with
  | (field_name, direction) =>
    match sortFieldOfName (lowerChars field_name) with
    | none => none
    | some f =>
      let descending :=
        match direction with
        | none => false
        | some d => (lowerChars d == "desc".data || lowerChars d == "descending".data)
      some ⟨f, descending⟩

/-- The sort parser exactly as the claim words it: split on commas, drop
tokens that are empty after trimming, read each remaining token, and give
the empty sequence on a non-string value. -/
def claimParseSort (value : Option Json) : List AggregateSort :=
  match value with
  | some (Json.str text) =>
    (((splitOnChar ',' text.data).map trimChars).filter (fun p => !p.isEmpty)).filterMap
      claimSortToken
  | _ => []

/-- Sort-token reading as amended: both the field name and the direction
are trimmed of surrounding whitespace before being lower-cased. -/
def amendedSortToken (part : List Char) : Option AggregateSort :=
  match splitFirst ':' part with
  | (field_name, direction) =>
    match sortFieldOfName (lowerChars (trimChars field_name)) with
    | none => none
    | some f =>
      let descending :=
        match direction with
        | none => false
        | some d =>
          (lowerChars (trimChars d) == "desc".data ||
            lowerChars (trimChars d) == "descending".data)
      some ⟨f, descending⟩

/-- The sort parser as amended. -/
def amendedParseSort (value : Option Json) : List AggregateSort :=
  match value with
  | some (Json.str text) =>
    (((splitOnChar ',' text.data).map trimChars).filter (fun p => !p.isEmpty)).filterMap
      amendedSortToken
  | _ => []

/-- Host resolution as the claim words it: the explicit host field if
present, else the explicit ip field, else the environment value, else the
literal default. -/
def claimHost (env : Env) (cfg : ConfigInput) : String :=
  match cfg.host with
  | some h => h
  | none =>
    match cfg.ip with
    | some ip => ip
    | none =>
      match env "EVENTDBX_HOST" with
      | some h => h
      | none => "127.0.0.1"

/-- Tenant resolution as the claim words it: tenantId, else tenant, else
tenantIdEnv used as a value, else the environment value, else the literal
default. -/
def claimTenant (env : Env) (cfg : ConfigInput) : String :=
  match cfg.tenant_id with
  | some t => t
  | none =>
    match cfg.tenant with
    | some t => t
    | none =>
      match cfg.tenant_id_env with
      | some t => t
      | none =>
        match env "EVENTDBX_TENANT_ID" with
        | some t => t
        | none => "default"

/-- A JSON value that is an array whose elements are all strings. -/
def isStringArray : Json → Bool
  | Json.arr items =>
    items.all fun v =>
      match v with
      | Json.str _ => true
      | _ => false
  | _ => false

/-- The error-slot discipline of one entry point, as a function of the
incoming slot state: a null slot pointer is never written; a live slot is
cleared on entry, so its stale content never influences the result; a
populated slot implies a null return; a non-null return leaves the slot
holding the null message written at entry. -/
def WellBehavedSlot {α : Type} (f : ErrSlot → ErrSlot × Option α) : Prop :=
  ((f none).1 = none)
  ∧ (∀ s0 s1 : Option String, f (some s0) = f (some s1))
  ∧ (∀ (s0 : Option String) (m : String),
      (f (some s0)).1 = some (some m) → (f (some s0)).2 = none)
  ∧ (∀ s0 : Option String, (f (some s0)).2 ≠ none → (f (some s0)).1 = some none)

/-- Every function of the ffi_return shape obeys the slot discipline. -/
theorem ffi_return_wellBehaved {α : Type} (body : Except String α) :
    WellBehavedSlot (fun s0 => ffi_return s0 body) := by
  refine ⟨?_, ?_, ?_, ?_⟩
  · cases body <;> rfl
  · intro s0 s1; cases body <;> rfl
  · intro s0 m h
    cases body with
    | error e => rfl
    | ok a =>
      simp [ffi_return, clear_error] at h
      exact Option.noConfusion (Option.some.inj h)
  · intro s0 h
    cases body with
    | error e => simp [ffi_return, clear_error, set_error] at h
    | ok a => rfl

/-!
Claim theorems.
-/

/-- C1 counterexample: on the sort string "type : desc" the source parser
trims the field name and the direction around the colon and produces a
descending aggregate-type entry, while the claim as stated (which
lower-cases the halves without trimming them) drops the token entirely. -/
theorem parse_sort_literal_claim_false :
    parse_sort (some (Json.str "type : desc")) =
        [⟨AggregateSortField.aggregateType, true⟩]
      ∧ claimParseSort (some (Json.str "type : desc")) = [] := by
  constructor <;> rfl

/-- Every token parses the same under the source rule and the amended
rule: trimming the halves before lower-casing is the only difference
between them, and the source's lower-cased trimmed default direction is
ascending. -/
theorem parseSortToken_eq_amended (part : List Char) :
    parseSortToken part = amendedSortToken part := by
  unfold parseSortToken amendedSortToken
  rcases h : splitFirst ':' part with ⟨field_part, order_part⟩
  cases order_part <;>
    cases sortFieldOfName (lowerChars (trimChars field_part)) <;> rfl

/-- C1 (amended): the sort parser splits on commas, drops tokens that are
empty after trimming, splits each remaining token on the first colon,
trims and lower-cases the field name, matches it against the fixed
enumeration dropping unrecognized names while preserving order, and sets
descending exactly when the trimmed lower-cased direction is desc or
descending, with an absent direction meaning ascending; a non-string sort
value yields the empty sequence. -/
theorem parse_sort_amended_spec (value : Option Json) :
    parse_sort value = amendedParseSort value
      ∧ ((∀ s, value ≠ some (Json.str s)) → parse_sort value = []) := by
  constructor
  · unfold parse_sort amendedParseSort
    cases value with
    | none => rfl
    | some v =>
      cases v with
      | str text =>
        simp only []
        exact List.filterMap_congr fun part _ => parseSortToken_eq_amended part
      | null => rfl
      | bool b => rfl
      | num n => rfl
      | arr elems => rfl
      | obj entries => rfl
  · intro h
    unfold parse_sort
    cases value with
    | none => rfl
    | some v =>
      cases v with
      | str text => exact absurd rfl (h text)
      | null => rfl
      | bool b => rfl
      | num n => rfl
      | arr elems => rfl
      | obj entries => rfl

/-- C1 witness: the amended theorem applied to a concrete non-string sort
value. -/
theorem parse_sort_amended_spec_witness :
    parse_sort (some (Json.num 7)) = [] :=
  (parse_sort_amended_spec (some (Json.num 7))).2
    (fun _ h => Json.noConfusion (Option.some.inj h))

/-- C3: host resolution takes the explicit host field first, then the
explicit ip field, then the EVENTDBX_HOST environment value, then the
literal default, and tenant resolution takes tenantId, then tenant, then
tenantIdEnv used as a value, then the EVENTDBX_TENANT_ID environment
value, then the literal default — first match wins in both chains. -/
theorem config_precedence_host_tenant (env : Env) (cfg : ConfigInput) :
    default_host env cfg = claimHost env cfg
      ∧ default_tenant env cfg = claimTenant env cfg := by
  obtain ⟨ip, host, port, token, tenant_id, tenant, tenant_id_env, nn, ct, rt, pv⟩ := cfg
  constructor
  · cases host <;> cases ip <;> cases h : env "EVENTDBX_HOST" <;>
      simp [default_host, claimHost, h, Option.orElse]
  · cases tenant_id <;> cases tenant <;> cases tenant_id_env <;>
      cases h : env "EVENTDBX_TENANT_ID" <;>
      simp [default_tenant, claimTenant, h, Option.orElse]

/-- C2: whenever the decoded configuration carries no explicit token and
the EVENTDBX_TOKEN environment variable is unset, construction fails with
the missing-token message and a null handle; the result does not depend on
the runtime constructor or the connect handshake, so no connection is
attempted. -/
theorem missing_token_fails_construction (slot0 : ErrSlot) (P : JsonDecoder) (env : Env)
    (config_json : CStr) (cfg : ConfigInput)
    (runtime_new : Except String Unit) (connect : ClientConfig → Except String Unit)
    (hdec : decode_config P config_json = Except.ok cfg)
    (htok : cfg.token = none) (henv : env "EVENTDBX_TOKEN" = none) :
    dbx_client_new slot0 P env config_json runtime_new connect
      = (set_error "token is required" (clear_error slot0), none) := by
  have hres : default_token env cfg = none := by
    simp [default_token, htok, henv, Option.orElse]
  unfold dbx_client_new client_new_body
  rw [hdec]
  simp only [hres]
  rfl

/-- C2 witness: an empty configuration against an empty environment. -/
theorem missing_token_fails_construction_witness :
    dbx_client_new (some none) (fun _ => Except.ok Json.null) (fun _ => none) CStr.null
        (Except.ok ()) (fun _ => Except.ok ())
      = (some (some "token is required"), none) :=
  missing_token_fails_construction (some none) (fun _ => Except.ok Json.null)
    (fun _ => none) CStr.null {} (Except.ok ()) (fun _ => Except.ok ()) rfl rfl rfl

/-- C4: the append and create request builders replace a structured-null
payload (which is also the default when the payload key is absent) by an
empty JSON object and otherwise pass the payload verbatim, while the patch
request builder uses the parsed patch value as-is, including null. -/
theorem payload_normalization_append_create_patch (t i e : String)
    (optsValue patchValue : Json) :
    (parse_payload_options (Json.obj [])).payload = Json.null
    ∧ ((parse_payload_options optsValue).payload = Json.null →
        (build_append_request t i e optsValue).payload = Json.obj []
        ∧ (build_create_request t i e optsValue).payload = Json.obj [])
    ∧ ((parse_payload_options optsValue).payload ≠ Json.null →
        (build_append_request t i e optsValue).payload
            = (parse_payload_options optsValue).payload
        ∧ (build_create_request t i e optsValue).payload
            = (parse_payload_options optsValue).payload)
    ∧ (build_patch_request t i e patchValue optsValue).payload = patchValue := by
  refine ⟨rfl, fun h => ⟨?_, ?_⟩, fun h => ⟨?_, ?_⟩, rfl⟩
  · show (match (parse_payload_options optsValue).payload with
          | Json.null => Json.obj []
          | other => other) = Json.obj []
    rw [h]
  · show (match (parse_payload_options optsValue).payload with
          | Json.null => Json.obj []
          | other => other) = Json.obj []
    rw [h]
  · show (match (parse_payload_options optsValue).payload with
          | Json.null => Json.obj []
          | other => other) = (parse_payload_options optsValue).payload
    cases hp : (parse_payload_options optsValue).payload <;>
      first
      | exact absurd hp h
      | rfl
  · show (match (parse_payload_options optsValue).payload with
          | Json.null => Json.obj []
          | other => other) = (parse_payload_options optsValue).payload
    cases hp : (parse_payload_options optsValue).payload <;>
      first
      | exact absurd hp h
      | rfl

/-- C4 witness: the normalization with options lacking a payload key, and
the verbatim pass-through of a non-null payload. -/
theorem payload_normalization_append_create_patch_witness :
    (build_append_request "a" "b" "c" (Json.obj [])).payload = Json.obj []
    ∧ (build_append_request "a" "b" "c"
        (Json.obj [("payload", Json.bool true)])).payload = Json.bool true := by
  refine ⟨?_, ?_⟩
  · exact ((payload_normalization_append_create_patch "a" "b" "c"
      (Json.obj []) Json.null).2.1 rfl).1
  · exact ((payload_normalization_append_create_patch "a" "b" "c"
      (Json.obj [("payload", Json.bool true)]) Json.null).2.2.1
        (fun h => Json.noConfusion h)).1

/-- C5: each of the nine handle-taking operations invoked on a null handle
writes the null-handle message into a live error slot and returns a null
buffer, independently of every decoder, encoder and client oracle (so no
other state is consulted), while freeing a null handle does nothing. -/
theorem null_handle_rejected_everywhere (slot0 : ErrSlot) (P : JsonDecoder)
    (ser : JsonEncoder) (t i e o patch fs : CStr) (archived : Bool)
    (cl1 : ListAggregatesOptions → Except String ListAggregatesResponse)
    (cl2 : String → String → Except String GetAggregateResponse)
    (cl3 : SelectAggregateRequest → Except String SelectAggregateResponse)
    (cl4 : String → String → ListEventsOptions → Except String ListEventsResponse)
    (cl5 : AppendEventRequest → Except String AppendEventResponse)
    (cl6 : CreateAggregateRequest → Except String CreateAggregateResponse)
    (cl7 : PatchEventRequest → Except String PatchEventResponse)
    (cl8 : SetAggregateArchiveRequest → Except String SetArchiveResponse)
    (cl9 : String → String → Except String VerifyAggregateResponse) :
    dbx_list_aggregates slot0 true t o P ser cl1
        = (set_error "handle is null" (clear_error slot0), none)
    ∧ dbx_get_aggregate slot0 true t i ser cl2
        = (set_error "handle is null" (clear_error slot0), none)
    ∧ dbx_select_aggregate slot0 true t i fs P ser cl3
        = (set_error "handle is null" (clear_error slot0), none)
    ∧ dbx_list_events slot0 true t i o P ser cl4
        = (set_error "handle is null" (clear_error slot0), none)
    ∧ dbx_append_event slot0 true t i e o P ser cl5
        = (set_error "handle is null" (clear_error slot0), none)
    ∧ dbx_create_aggregate slot0 true t i e o P ser cl6
        = (set_error "handle is null" (clear_error slot0), none)
    ∧ dbx_patch_event slot0 true t i e patch o P ser cl7
        = (set_error "handle is null" (clear_error slot0), none)
    ∧ dbx_set_archive slot0 true t i archived o P ser cl8
        = (set_error "handle is null" (clear_error slot0), none)
    ∧ dbx_verify_aggregate slot0 true t i ser cl9
        = (set_error "handle is null" (clear_error slot0), none)
    ∧ dbx_client_free true = FreeAction.noop :=
  ⟨rfl, rfl, rfl, rfl, rfl, rfl, rfl, rfl, rfl, rfl⟩

/-- C6: every fallible entry point obeys the error-slot discipline: a live
slot is cleared on entry (its stale content never influences the result
and a null slot pointer is never written), a populated slot implies a null
return value, and a non-null return leaves the slot holding the null
written at entry. -/
theorem error_slot_protocol_all_entry_points (handleNull : Bool) (P : JsonDecoder)
    (ser : JsonEncoder) (t i e o patch fs c : CStr) (archived : Bool) (env : Env)
    (runtime_new : Except String Unit) (connect : ClientConfig → Except String Unit)
    (cl1 : ListAggregatesOptions → Except String ListAggregatesResponse)
    (cl2 : String → String → Except String GetAggregateResponse)
    (cl3 : SelectAggregateRequest → Except String SelectAggregateResponse)
    (cl4 : String → String → ListEventsOptions → Except String ListEventsResponse)
    (cl5 : AppendEventRequest → Except String AppendEventResponse)
    (cl6 : CreateAggregateRequest → Except String CreateAggregateResponse)
    (cl7 : PatchEventRequest → Except String PatchEventResponse)
    (cl8 : SetAggregateArchiveRequest → Except String SetArchiveResponse)
    (cl9 : String → String → Except String VerifyAggregateResponse) :
    WellBehavedSlot (fun s0 => dbx_list_aggregates s0 handleNull t o P ser cl1)
    ∧ WellBehavedSlot (fun s0 => dbx_get_aggregate s0 handleNull t i ser cl2)
    ∧ WellBehavedSlot (fun s0 => dbx_select_aggregate s0 handleNull t i fs P ser cl3)
    ∧ WellBehavedSlot (fun s0 => dbx_list_events s0 handleNull t i o P ser cl4)
    ∧ WellBehavedSlot (fun s0 => dbx_append_event s0 handleNull t i e o P ser cl5)
    ∧ WellBehavedSlot (fun s0 => dbx_create_aggregate s0 handleNull t i e o P ser cl6)
    ∧ WellBehavedSlot (fun s0 => dbx_patch_event s0 handleNull t i e patch o P ser cl7)
    ∧ WellBehavedSlot (fun s0 => dbx_set_archive s0 handleNull t i archived o P ser cl8)
    ∧ WellBehavedSlot (fun s0 => dbx_verify_aggregate s0 handleNull t i ser cl9)
    ∧ WellBehavedSlot (fun s0 => dbx_client_new s0 P env c runtime_new connect) :=
  ⟨ffi_return_wellBehaved _, ffi_return_wellBehaved _, ffi_return_wellBehaved _,
    ffi_return_wellBehaved _, ffi_return_wellBehaved _, ffi_return_wellBehaved _,
    ffi_return_wellBehaved _, ffi_return_wellBehaved _, ffi_return_wellBehaved _,
    ffi_return_wellBehaved _⟩

/-- C6 witness: on a failing get-aggregate call with a stale slot, the
populated slot forces a null return. -/
theorem error_slot_protocol_all_entry_points_witness :
    (dbx_get_aggregate (some (some "stale")) true CStr.null CStr.null
        (fun _ => Except.ok "out") (fun _ _ => Except.error "client down")).2 = none :=
  ((error_slot_protocol_all_entry_points true (fun _ => Except.ok Json.null)
      (fun _ => Except.ok "out") CStr.null CStr.null CStr.null CStr.null CStr.null
      CStr.null CStr.null false (fun _ => none) (Except.ok ()) (fun _ => Except.ok ())
      (fun _ => Except.error "client down") (fun _ _ => Except.error "client down")
      (fun _ => Except.error "client down")
      (fun _ _ _ => Except.error "client down")
      (fun _ => Except.error "client down") (fun _ => Except.error "client down")
      (fun _ => Except.error "client down") (fun _ => Except.error "client down")
      (fun _ _ => Except.error "client down")).2.1).2.2.1
    (some "stale") "handle is null" rfl

/-- C7: the boundary JSON decoder maps a null pointer and blank text to
structured null, returns the value of the underlying grammar on non-blank
well-formed text, wraps the grammar's message in a parse error on
malformed text, and reports invalid UTF-8 with a distinct encoding
message. -/
theorem parse_json_boundary_behavior (P : JsonDecoder) (text e m : String) (v : Json) :
    parse_json P CStr.null = Except.ok Json.null
    ∧ ((trimChars text.data).isEmpty = true →
        parse_json P (CStr.valid text) = Except.ok Json.null)
    ∧ ((trimChars text.data).isEmpty = false → P text = Except.ok v →
        parse_json P (CStr.valid text) = Except.ok v)
    ∧ ((trimChars text.data).isEmpty = false → P text = Except.error m →
        parse_json P (CStr.valid text) = Except.error ("invalid json: " ++ m))
    ∧ parse_json P (CStr.invalid e) = Except.error ("invalid utf-8: " ++ e)
    ∧ ("invalid utf-8: " ++ e) ≠ ("invalid json: " ++ m) := by
  refine ⟨rfl, ?_, ?_, ?_, rfl, ?_⟩
  · intro h
    simp [parse_json, string_from_ptr, h]
  · intro h hp
    simp [parse_json, string_from_ptr, h, hp]
  · intro h hp
    simp [parse_json, string_from_ptr, h, hp]
  · intro hEq
    have := congrArg String.data hEq
    simp [String.data_append] at this

/-- C7 witness: blank text and well-formed text against a concrete
grammar. -/
theorem parse_json_boundary_behavior_witness :
    parse_json (fun _ => Except.ok (Json.bool true)) (CStr.valid " ") = Except.ok Json.null
    ∧ parse_json (fun _ => Except.ok (Json.bool true)) (CStr.valid "true")
        = Except.ok (Json.bool true) :=
  ⟨(parse_json_boundary_behavior (fun _ => Except.ok (Json.bool true)) " " "x" "y"
      (Json.bool true)).2.1 (by decide),
    (parse_json_boundary_behavior (fun _ => Except.ok (Json.bool true)) "true" "x" "y"
      (Json.bool true)).2.2.1 (by decide) rfl⟩

/-- C8: when the aggregate-type argument decodes to a non-empty string and
the decoded options hold no filter string, the listing options carry the
synthesized filter with the type inserted verbatim between the quotes; an
explicit filter string is kept unchanged. -/
theorem list_aggregates_filter_synthesis (s : String) (v : Json) (hs : s ≠ "") :
    ((v.asObject.bind (fun m => jget m "filter")).bind Json.asStr = none →
      (build_list_aggregates_opts (if s = "" then none else some s) v).filter
        = some ("aggregate_type = \"" ++ s ++ "\""))
    ∧ (∀ f, (v.asObject.bind (fun m => jget m "filter")).bind Json.asStr = some f →
        (build_list_aggregates_opts (if s = "" then none else some s) v).filter = some f) := by
  rw [if_neg hs]
  constructor
  · intro h
    cases hv : v.asObject with
    | none => simp [build_list_aggregates_opts, hv]
    | some m =>
      rw [hv] at h
      have h' : (jget m "filter").bind Json.asStr = none := h
      simp only [build_list_aggregates_opts, hv]
      rw [if_pos h']
  · intro f h
    cases hv : v.asObject with
    | none =>
      rw [hv] at h
      exact Option.noConfusion h
    | some m =>
      rw [hv] at h
      have h' : (jget m "filter").bind Json.asStr = some f := h
      simp only [build_list_aggregates_opts, hv]
      rw [if_neg (by simp [h'])]
      exact h'

/-- C8 witness: a non-empty aggregate type with absent options. -/
theorem list_aggregates_filter_synthesis_witness :
    (build_list_aggregates_opts (if "order" = "" then none else some "order")
        Json.null).filter
      = some "aggregate_type = \"order\"" :=
  (list_aggregates_filter_synthesis "order" Json.null (by decide)).1 rfl

/-- C9 counterexample: the fields value consisting of a one-element array
holding a number is not an array of strings and not null, yet the
fields decoder accepts it (as the empty field list) instead of failing as
the claim requires. -/
theorem fields_nonstring_array_accepted :
    isStringArray (Json.arr [Json.num 1]) = false
    ∧ Json.arr [Json.num 1] ≠ Json.null
    ∧ parse_fields (Json.arr [Json.num 1]) = Except.ok [] :=
  ⟨rfl, fun h => Json.noConfusion h, rfl⟩

/-- C9 (amended): if the decoded fields value is neither an array nor
null, the select operation fails with the invalid-fields message and a
null result; an array contributes exactly its string elements in order,
with non-string elements silently dropped; null or absent fields give the
empty field list. -/
theorem parse_fields_amended_spec (slot0 : ErrSlot) (t i : String) (P : JsonDecoder)
    (ser : JsonEncoder)
    (client : SelectAggregateRequest → Except String SelectAggregateResponse)
    (fields_json : CStr) (v : Json)
    (hv : parse_json P fields_json = Except.ok v)
    (harr : ∀ items, v ≠ Json.arr items) (hnull : v ≠ Json.null) :
    dbx_select_aggregate slot0 false (CStr.valid t) (CStr.valid i) fields_json P ser client
      = (set_error "fields must be an array of strings" (clear_error slot0), none)
    ∧ parse_fields Json.null = Except.ok []
    ∧ (∀ items, parse_fields (Json.arr items) = Except.ok (items.filterMap Json.asStr)) := by
  have hpf : parse_fields v = Except.error "fields must be an array of strings" := by
    cases v with
    | null => exact absurd rfl hnull
    | bool b => rfl
    | num n => rfl
    | str s => rfl
    | arr items => exact absurd rfl (harr items)
    | obj entries => rfl
  refine ⟨?_, rfl, fun items => rfl⟩
  unfold dbx_select_aggregate select_aggregate_body
  simp only [string_from_ptr, hv, hpf]
  rfl

/-- C9 witness: the amended theorem applied to a numeric fields value. -/
theorem parse_fields_amended_spec_witness :
    dbx_select_aggregate (some none) false (CStr.valid "a") (CStr.valid "b")
        (CStr.valid "0") (fun _ => Except.ok (Json.num 0)) (fun _ => Except.ok "out")
        (fun _ => Except.ok ⟨false, none⟩)
      = (some (some "fields must be an array of strings"), none) :=
  (parse_fields_amended_spec (some none) "a" "b" (fun _ => Except.ok (Json.num 0))
      (fun _ => Except.ok "out") (fun _ => Except.ok ⟨false, none⟩) (CStr.valid "0")
      (Json.num 0) rfl (fun _ h => Json.noConfusion h) (fun h => Json.noConfusion h)).1

/-- C10: a null string pointer decodes to the empty string rather than an
error, only invalid UTF-8 bytes produce the encoding error, and the
get-aggregate operation with null pointers for both identifiers behaves
exactly as if both identifiers were empty strings, proceeding to the
client call. -/
theorem null_string_ptr_decodes_empty :
    string_from_ptr CStr.null = Except.ok ""
    ∧ (∀ s, string_from_ptr (CStr.valid s) = Except.ok s)
    ∧ (∀ e, string_from_ptr (CStr.invalid e) = Except.error ("invalid utf-8: " ++ e))
    ∧ get_aggregate_args CStr.null CStr.null = Except.ok ("", "")
    ∧ (∀ (handleNull : Bool)
        (client : String → String → Except String GetAggregateResponse),
        get_aggregate_body handleNull CStr.null CStr.null client
          = get_aggregate_body handleNull (CStr.valid "") (CStr.valid "") client) :=
  ⟨rfl, fun _ => rfl, fun _ => rfl, rfl, fun _ _ => rfl⟩

end EventDbx
